import Mathlib

/- Shallow embedding of the "Open in Claude Code (Windows)" Obsidian plugin
   (src/main.ts).  The pure string and dispatch logic is translated directly
   from the source; the host application (Obsidian workspace/vault APIs),
   the OS shell and the child-process spawn facility are modelled as
   explicit parameters and oracles.  User-facing notices and console logs
   are not modelled. -/

/-- The double-quote character (ASCII 34), written via its code point. -/
def dquote : Char := Char.ofNat 34

/-- Embedding of escapeWindowsPath (src/main.ts line 119-121):
    str.replace with the global regex matching a double quote and the
    replacement consisting of two double quotes, i.e. every double-quote
    character is doubled and every other character is kept unchanged. -/
def escapeChars : List Char → List Char
  | [] => []
  | c :: rest =>
    if c = dquote then dquote :: dquote :: escapeChars rest
    else c :: escapeChars rest

/-- String-level wrapper of escapeChars; this is escapeWindowsPath itself. -/
def escapeWindowsPath (s : String) : String := ⟨escapeChars s.data⟩

/-- Test whether pat is a prefix of the first list (character lists). -/
def startsWithChars : List Char → List Char → Bool
  | _, [] => true
  | [], _ :: _ => false
  | c :: s, p :: ps => c = p && startsWithChars s ps

/-- Test whether pat occurs as a contiguous substring of the first list. -/
def containsChars : List Char → List Char → Bool
  | [], pat => startsWithChars [] pat
  | c :: rest, pat => startsWithChars (c :: rest) pat || containsChars rest pat

/-- String-level substring test (true iff pat occurs contiguously in s). -/
def strContains (s pat : String) : Bool := containsChars s.data pat.data

/-- The backtick character (ASCII 96), written via its code point. -/
def backquoteChar : Char := Char.ofNat 96

/-- The single-quote character (ASCII 39), written via its code point. -/
def squoteChar : Char := Char.ofNat 39

/-- Embedding of the ECMAScript GetSubstitution step that
    String.prototype.replace applies to a *string* replacement, for a
    string (non-regex) pattern — so the match has no capture groups:
    a doubled dollar yields one literal dollar; dollar-ampersand yields
    the matched text (the pattern itself); dollar-backtick yields the
    portion of the subject before the match; dollar-single-quote yields
    the portion after it.  Every other dollar is kept literally and
    scanning resumes at the character after it (this covers dollar-digit,
    which with zero capture groups the major engines keep literal, and
    dollar-angle, literal when no named captures exist), as is every
    non-dollar character. -/
def getSubstitution (matched before after : List Char) : List Char → List Char
  | [] => []
  | c :: rest =>
    if c = '$' then
      match rest with
      | [] => [c]
      | d :: rest2 =>
        if d = '$' then c :: getSubstitution matched before after rest2
        else if d = '&' then matched ++ getSubstitution matched before after rest2
        else if d = backquoteChar then before ++ getSubstitution matched before after rest2
        else if d = squoteChar then after ++ getSubstitution matched before after rest2
        else c :: getSubstitution matched before after (d :: rest2)
    else c :: getSubstitution matched before after rest

/-- Split of a subject around the FIRST occurrence of pat: the portion
    before the match and the portion after it, or none when pat does not
    occur. -/
def firstMatchSplit (pat : List Char) : List Char → Option (List Char × List Char)
  | [] => if startsWithChars [] pat then some ([], []) else none
  | c :: rest =>
    if startsWithChars (c :: rest) pat then
      some ([], List.drop pat.length (c :: rest))
    else
      match firstMatchSplit pat rest with
      | some (b, a) => some (c :: b, a)
      | none => none

/-- Embedding of the JavaScript String.prototype.replace with a *string*
    (non-regex) pattern, as used in executeCustomCommand (src/main.ts lines
    516-518): only the FIRST occurrence of the pattern is replaced, and the
    replacement is inserted after the GetSubstitution rewriting of its
    dollar sequences; a subject without the pattern is returned unchanged. -/
def replaceFirstChars (pat rep s : List Char) : List Char :=
  match firstMatchSplit pat s with
  | none => s
  | some (before, after) => before ++ getSubstitution pat before after rep ++ after

/-- String-level wrapper of replaceFirstChars. -/
def jsReplaceFirst (s pat rep : String) : String :=
  ⟨replaceFirstChars pat.data rep.data s.data⟩

/-- Settings record (interface OpenInClaudeCodeSettings, src/main.ts lines
    13-35).  The optional fields are represented already merged over the
    defaults, as loadSettings (line 604-606) produces them. -/
structure OpenInClaudeCodeSettings where
  terminalApp : String
  customCommand : String
  claudeCodePath : String
  useCustomClaudePath : Bool
  keyboardShortcut : String
  showDebugInfo : Bool
  terminalDelay : Nat
  alwaysOpenVaultRoot : Bool
  useCustomVaultPath : Bool
  customVaultPath : String
  permissionMode : String
  dangerouslySkipPermissions : Bool
  allowedTools : List String
  deniedTools : List String
  claudeModel : String
  continueLastSession : Bool
  additionalDirectories : List String
  maxTurns : Int
  verboseMode : Bool
deriving DecidableEq

/-- Embedding of DEFAULT_SETTINGS (src/main.ts lines 38-60). -/
def DEFAULT_SETTINGS : OpenInClaudeCodeSettings where
  terminalApp := "cmd"
  customCommand := ""
  claudeCodePath := "claude"
  useCustomClaudePath := false
  keyboardShortcut := "Ctrl+Shift+C"
  showDebugInfo := false
  terminalDelay := 1500
  alwaysOpenVaultRoot := false
  useCustomVaultPath := false
  customVaultPath := ""
  permissionMode := "default"
  dangerouslySkipPermissions := false
  allowedTools := []
  deniedTools := []
  claudeModel := "default"
  continueLastSession := false
  additionalDirectories := []
  maxTurns := 10
  verboseMode := false

/- buildClaudeCommand (src/main.ts lines 161-214), one definition per
   source if-block, composed in source order below.  JavaScript truthiness
   guards on merged settings translate as follows: a string tested for
   truthiness is compared against the empty string, a number against 0 and
   an array length against 0. -/

/-- Base invocation token (line 162): the override path when the override
    toggle is on, else the literal default token. -/
def baseInvocationToken (s : OpenInClaudeCodeSettings) : String :=
  if s.useCustomClaudePath then s.claudeCodePath else "claude"

/-- Step 1 (lines 165-167): permission mode flag when not default. -/
def addPermissionMode (s : OpenInClaudeCodeSettings) (command : String) : String :=
  if s.permissionMode ≠ "" ∧ s.permissionMode ≠ "default" then
    command ++ " --permission-mode " ++ s.permissionMode
  else command

/-- Step 2 (lines 170-172): dangerously-skip-permissions flag. -/
def addSkipPermissions (s : OpenInClaudeCodeSettings) (command : String) : String :=
  if s.dangerouslySkipPermissions then command ++ " --dangerously-skip-permissions"
  else command

/-- Step 3 (lines 175-177): allowed tools, comma-joined. -/
def addAllowedTools (s : OpenInClaudeCodeSettings) (command : String) : String :=
  if s.allowedTools.length > 0 then
    command ++ " --allowedTools " ++ String.intercalate "," s.allowedTools
  else command

/-- Step 4 (lines 180-182): denied tools, comma-joined. -/
def addDeniedTools (s : OpenInClaudeCodeSettings) (command : String) : String :=
  if s.deniedTools.length > 0 then
    command ++ " --disallowedTools " ++ String.intercalate "," s.deniedTools
  else command

/-- Step 5 (lines 185-187): model flag when not default. -/
def addModel (s : OpenInClaudeCodeSettings) (command : String) : String :=
  if s.claudeModel ≠ "" ∧ s.claudeModel ≠ "default" then
    command ++ " --model " ++ s.claudeModel
  else command

/-- Step 6 (lines 190-192): continue flag. -/
def addContinueSession (s : OpenInClaudeCodeSettings) (command : String) : String :=
  if s.continueLastSession then command ++ " --continue" else command

/-- Step 7 (lines 195-197): max-turns flag.  The source guard is
    settings.maxTurns && settings.maxTurns !== 10, so the value 0 is falsy
    and appends nothing, exactly like the default 10. -/
def addMaxTurns (s : OpenInClaudeCodeSettings) (command : String) : String :=
  if s.maxTurns ≠ 0 ∧ s.maxTurns ≠ 10 then
    command ++ " --max-turns " ++ toString s.maxTurns
  else command

/-- Step 8 (lines 200-202): verbose flag. -/
def addVerbose (s : OpenInClaudeCodeSettings) (command : String) : String :=
  if s.verboseMode then command ++ " --verbose" else command

/-- Body of the additional-directories loop (lines 206-210): skip blank
    entries, append the trimmed, quote-escaped path in double quotes. -/
def addDirStep (command : String) (dir : String) : String :=
  if dir.trim ≠ "" then
    command ++ " --add-dir \"" ++ escapeWindowsPath dir.trim ++ "\""
  else command

/-- Step 9 (lines 205-211): the loop over additionalDirectories in order. -/
def addAdditionalDirectories (s : OpenInClaudeCodeSettings) (command : String) : String :=
  s.additionalDirectories.foldl addDirStep command

/-- Embedding of buildClaudeCommand (src/main.ts lines 161-214): the steps
    above applied in source order to the base invocation token. -/
def buildClaudeCommand (s : OpenInClaudeCodeSettings) : String :=
  addAdditionalDirectories s (addVerbose s (addMaxTurns s (addContinueSession s
    (addModel s (addDeniedTools s (addAllowedTools s (addSkipPermissions s
      (addPermissionMode s (baseInvocationToken s)))))))))

/-- Model of an Obsidian TFile as the Path Resolver consumes it: only the
    parent folder's vault-relative path matters (activeFile.parent?.path,
    src/main.ts line 374); none models a missing parent object. -/
structure TFile where
  parentPath : Option String
deriving DecidableEq

/-- Separator normalization (src/main.ts line 378): folderPath.replace with
    the global regex matching a forward slash and a backslash replacement,
    i.e. every forward slash becomes a backslash. -/
def normalizeSeparators (p : String) : String :=
  ⟨p.data.map (fun c => if c = '/' then '\\' else c)⟩

/-- Embedding of getVaultPath (src/main.ts lines 342-353).  The argument
    detectedBasePath stands for what the host adapter reports; the source
    returns the empty string when the adapter is not a FileSystemAdapter,
    which is covered by passing the empty string. -/
def getVaultPath (s : OpenInClaudeCodeSettings) (detectedBasePath : String) : String :=
  if s.useCustomVaultPath = true ∧ s.customVaultPath ≠ "" then s.customVaultPath
  else detectedBasePath

/-- Folder path of the active file as line 374 computes it:
    activeFile.parent?.path || the empty string. -/
def activeParentPath : Option TFile → String
  | none => ""
  | some f => f.parentPath.getD ""

/-- Embedding of getWorkingDirectory (src/main.ts lines 358-382). -/
def getWorkingDirectory (s : OpenInClaudeCodeSettings) (detectedBasePath : String)
    (activeFile : Option TFile) : String :=
  let vaultPath := getVaultPath s detectedBasePath
  if s.alwaysOpenVaultRoot then vaultPath
  else
    match activeFile with
    | none => vaultPath
    | some file =>
      let folderPath := file.parentPath.getD ""
      if folderPath ≠ "" then vaultPath ++ "\\" ++ normalizeSeparators folderPath
      else vaultPath

/-- Entry of the TERMINAL_APPS table (src/main.ts lines 63-69). -/
structure TerminalAppConfig where
  name : String
  executableName : String
  openCommand : Option (String → String → String)
  requiresDelay : Bool := false
  customDelay : Nat := 0

/-- Open command of the cmd entry (src/main.ts lines 73-76). -/
def cmdOpenCommand (cwd claudePath : String) : String :=
  "cmd /c \"start cmd /k \\\"cd /d " ++ escapeWindowsPath cwd ++ " && " ++
    claudePath ++ "\\\"\""

/-- Open command of the powershell entry (src/main.ts lines 81-84); the
    single-quote characters of the source string are written via their code
    point x27. -/
def powershellOpenCommand (cwd claudePath : String) : String :=
  "powershell -Command \"Start-Process powershell -ArgumentList \x27-NoExit\x27, \x27-Command\x27, \x27Set-Location \\\"" ++
    escapeWindowsPath cwd ++ "\\\"; " ++ claudePath ++ "\x27\""

/-- Open command of the windowsterminal entry (src/main.ts lines 89-92). -/
def windowsTerminalOpenCommand (cwd claudePath : String) : String :=
  "wt -d \"" ++ escapeWindowsPath cwd ++ "\" cmd /k \"" ++ claudePath ++ "\""

/-- Open command of the vscode entry (src/main.ts lines 97-100); the built
    claude command is ignored by this open step. -/
def vscodeOpenCommand (cwd _claudePath : String) : String :=
  "code \"" ++ escapeWindowsPath cwd ++ "\""

/-- Open command of the cursor entry (src/main.ts lines 106-109). -/
def cursorOpenCommand (cwd _claudePath : String) : String :=
  "cursor \"" ++ escapeWindowsPath cwd ++ "\""

/-- Embedding of the TERMINAL_APPS record (src/main.ts lines 63-112) as a
    lookup: a string key either hits one of the five fixed entries or
    misses. -/
def TERMINAL_APPS (id : String) : Option TerminalAppConfig :=
  if id = "cmd" then
    some { name := "Command Prompt", executableName := "cmd.exe",
           openCommand := some cmdOpenCommand }
  else if id = "powershell" then
    some { name := "PowerShell", executableName := "powershell.exe",
           openCommand := some powershellOpenCommand }
  else if id = "windowsterminal" then
    some { name := "Windows Terminal", executableName := "wt.exe",
           openCommand := some windowsTerminalOpenCommand }
  else if id = "vscode" then
    some { name := "VS Code", executableName := "code.exe",
           openCommand := some vscodeOpenCommand, requiresDelay := true }
  else if id = "cursor" then
    some { name := "Cursor", executableName := "cursor.exe",
           openCommand := some cursorOpenCommand, requiresDelay := true }
  else none

/-- One call handed to the OS process-spawn facility (execAsync,
    src/main.ts lines 129-140): the command line and the optional working
    directory passed in the options. -/
structure SpawnCall where
  command : String
  cwd : Option String
deriving DecidableEq

/-- One delayed keystroke-automation step scheduled via setTimeout
    (src/main.ts lines 570-601): the delay and the PowerShell script. -/
structure ScheduledStep where
  delayMs : Nat
  script : String
deriving DecidableEq

/-- PowerShell automation script for VS Code (src/main.ts lines 576-583);
    the template-literal line breaks are kept, its leading indentation is
    not (no claim inspects the script text).  The backtick of the
    control-backtick chord is written via its code point x60. -/
def vscodeTerminalScript (claudeCommand : String) : String :=
  "Add-Type -AssemblyName System.Windows.Forms\n" ++
  "Start-Sleep -Milliseconds 500\n" ++
  "[System.Windows.Forms.SendKeys]::SendWait(\"^\x60\")\n" ++
  "Start-Sleep -Milliseconds 1000\n" ++
  "[System.Windows.Forms.SendKeys]::SendWait(\"" ++ claudeCommand ++ "\")\n" ++
  "[System.Windows.Forms.SendKeys]::SendWait(\"{ENTER}\")"

/-- PowerShell automation script for Cursor (src/main.ts lines 586-593). -/
def cursorTerminalScript (claudeCommand : String) : String :=
  "Add-Type -AssemblyName System.Windows.Forms\n" ++
  "Start-Sleep -Milliseconds 500\n" ++
  "[System.Windows.Forms.SendKeys]::SendWait(\"^j\")\n" ++
  "Start-Sleep -Milliseconds 1000\n" ++
  "[System.Windows.Forms.SendKeys]::SendWait(\"" ++ claudeCommand ++ "\")\n" ++
  "[System.Windows.Forms.SendKeys]::SendWait(\"{ENTER}\")"

/-- Embedding of handleCodeEditor (src/main.ts lines 559-602): the primary
    editor spawn plus the scheduled delayed automation step.  The delay
    mirrors customDelay || settings.terminalDelay || 1500, with 0 as the
    numeric falsy value. -/
def handleCodeEditor (s : OpenInClaudeCodeSettings) (cfg : TerminalAppConfig)
    (cwd claudeCommand : String) : List SpawnCall × List ScheduledStep :=
  let delay := if cfg.customDelay ≠ 0 then cfg.customDelay
    else if s.terminalDelay ≠ 0 then s.terminalDelay else 1500
  let openCmd := (cfg.openCommand.getD (fun _ _ => "")) cwd claudeCommand
  let script := if s.terminalApp = "vscode" then vscodeTerminalScript claudeCommand
    else cursorTerminalScript claudeCommand
  ([⟨openCmd, none⟩], [⟨delay, script⟩])

/-- Embedding of openInTerminal (src/main.ts lines 530-554): a missing
    dispatch-table entry is the InvalidTerminalSelected error thrown before
    any spawn; otherwise the spawn calls (and scheduled automation steps)
    the invocation performs.  Spawns themselves are modelled as succeeding;
    claims about spawn-failure surfacing are outside this embedding. -/
def openInTerminal (isWin : Bool) (s : OpenInClaudeCodeSettings) (cwd : String) :
    Except String (List SpawnCall × List ScheduledStep) :=
  match TERMINAL_APPS s.terminalApp with
  | none => Except.error "Invalid terminal application selected"
  | some cfg =>
    let claudeCommand := buildClaudeCommand s
    if s.terminalApp = "vscode" ∨ s.terminalApp = "cursor" then
      Except.ok (handleCodeEditor s cfg cwd claudeCommand)
    else
      match isWin, cfg.openCommand with
      | true, some f => Except.ok ([⟨f cwd claudeCommand, none⟩], [])
      | true, none => Except.ok ([⟨claudeCommand, some cwd⟩], [])
      | false, _ => Except.ok ([⟨claudeCommand, some cwd⟩], [])

/-- Embedding of the string built by executeCustomCommand (src/main.ts
    lines 514-518): the template with the first occurrence of the cwd
    placeholder replaced by the working directory, then the first
    occurrence of the claude placeholder replaced by the built command. -/
def customCommandString (s : OpenInClaudeCodeSettings) (cwd : String) : String :=
  jsReplaceFirst (jsReplaceFirst s.customCommand "{{cwd}}" cwd) "{{claude}}"
    (buildClaudeCommand s)

/-- Entry of the module-level terminalAppCache map (src/main.ts line 115). -/
structure TerminalCacheEntry where
  installed : Bool
  timestamp : Nat
deriving DecidableEq

/-- Embedding of CACHE_DURATION (src/main.ts line 116): one minute in
    milliseconds. -/
def CACHE_DURATION : Nat := 60000

/-- Lookup in the terminal-app cache, modelled as an association list in
    which the most recently stored entry for a key shadows older ones
    (observationally the Map.get of the source). -/
def cacheLookup (cache : List (String × TerminalCacheEntry)) (key : String) :
    Option TerminalCacheEntry :=
  match cache with
  | [] => none
  | (k, e) :: rest => if k = key then some e else cacheLookup rest key

/-- Embedding of checkTerminalAppInstalled (src/main.ts lines 421-469).
    now is Date.now() at the call; probeResult is an oracle for the outcome
    of the underlying probe sequence (the where lookup followed by the
    well-known path tests) were it executed at this moment — the source
    stores false both when all probes miss and when they error, so a single
    boolean is a faithful abstraction.  Returns the reported result and the
    cache after the call; times are epoch milliseconds. -/
def checkTerminalAppInstalled (isWin : Bool)
    (cache : List (String × TerminalCacheEntry)) (executableName : String)
    (now : Nat) (probeResult : Bool) :
    Bool × List (String × TerminalCacheEntry) :=
  if isWin = false then (true, cache)
  else
    match cacheLookup cache executableName with
    | some cached =>
      if now - cached.timestamp < CACHE_DURATION then (cached.installed, cache)
      else (probeResult, (executableName, ⟨probeResult, now⟩) :: cache)
    | none => (probeResult, (executableName, ⟨probeResult, now⟩) :: cache)

/-- Mutable plugin fields the installation check touches: the settings
    record and the private claudeInstalled field (src/main.ts lines
    216-218), which starts as null on plugin load (process restart). -/
structure PluginState where
  settings : OpenInClaudeCodeSettings
  claudeInstalled : Option Bool
deriving DecidableEq

/-- Oracle for the external probes of the installation check at one moment:
    verifyResult gives the outcome of verifyClaudePath for a given path
    (src/main.ts lines 264-274) and detectedPath the outcome of
    detectClaudePath (lines 223-259, none when detection fails).  The
    try/catch wrappers of the source map errors to negative outcomes, which
    the oracle absorbs. -/
structure ProbeEnv where
  verifyResult : String → Bool
  detectedPath : Option String

/-- Result of one checkClaudeCodeInstallation call: the returned boolean,
    the plugin state afterwards, and how many fresh probe sequences the
    call executed (0 when the cached field short-circuited). -/
structure InstallCheckResult where
  result : Bool
  state : PluginState
  probes : Nat
deriving DecidableEq

/-- Embedding of checkClaudeCodeInstallation (src/main.ts lines 387-416):
    a non-null claudeInstalled field is returned as-is with no probing;
    otherwise the custom path is verified when the override toggle is on,
    else auto-detection runs and a successful detection is written back
    into settings.claudeCodePath (with saveSettings, not modelled further). -/
def checkClaudeCodeInstallation (st : PluginState) (env : ProbeEnv) :
    InstallCheckResult :=
  match st.claudeInstalled with
  | some b => ⟨b, st, 0⟩
  | none =>
    if st.settings.useCustomClaudePath then
      let r := env.verifyResult st.settings.claudeCodePath
      ⟨r, { st with claudeInstalled := some r }, 1⟩
    else
      match env.detectedPath with
      | some p =>
        ⟨true,
         { st with
             settings := { st.settings with claudeCodePath := p },
             claudeInstalled := some true }, 1⟩
      | none => ⟨false, { st with claudeInstalled := some false }, 1⟩

/-- Embedding of the override-path toggle handler in the settings tab
    (src/main.ts lines 637-652): it flips useCustomClaudePath, re-runs
    detection when turning the override off, and saves — it never touches
    the claudeInstalled field. -/
def setUseCustomClaudePath (st : PluginState) (value : Bool) (env : ProbeEnv) :
    PluginState :=
  let s1 := { st.settings with useCustomClaudePath := value }
  let s2 :=
    if value then s1
    else
      match env.detectedPath with
      | some p => { s1 with claudeCodePath := p }
      | none => s1
  { st with settings := s2 }

/-- Embedding of the override-path text-field handler (src/main.ts lines
    656-662): it stores the new path and saves — it never touches the
    claudeInstalled field. -/
def setClaudeCodePath (st : PluginState) (value : String) : PluginState :=
  { st with settings := { st.settings with claudeCodePath := value } }

/-- Outcome of one openClaudeCode invocation: the platform refusal, the
    AssistantNotFound abort, a completed dispatch carrying the spawn calls
    and scheduled automation steps it performed, or a surfaced error
    carrying whatever spawns happened before the failure. -/
inductive LaunchResult where
  | notWindowsDesktop
  | assistantNotFound
  | ok (spawns : List SpawnCall) (scheduled : List ScheduledStep)
  | error (message : String) (spawns : List SpawnCall) (scheduled : List ScheduledStep)
deriving DecidableEq

/-- Spawn calls an outcome performed. -/
def launchSpawns : LaunchResult → List SpawnCall
  | LaunchResult.ok spawns _ => spawns
  | LaunchResult.error _ spawns _ => spawns
  | _ => []

/-- Scheduled automation steps an outcome left pending. -/
def launchScheduled : LaunchResult → List ScheduledStep
  | LaunchResult.ok _ scheduled => scheduled
  | LaunchResult.error _ _ scheduled => scheduled
  | _ => []

/-- Continuation of openClaudeCode after the platform gate (src/main.ts
    lines 481-508), applied to the result of the installation check: abort
    on a negative check, then resolve the directory and dispatch either
    through the custom template or the terminal table. -/
def openClaudeCodeAfterPlatformCheck (r : InstallCheckResult) (isWin : Bool)
    (detectedBasePath : String) (activeFile : Option TFile) :
    LaunchResult × PluginState :=
  if r.result = false then (LaunchResult.assistantNotFound, r.state)
  else
    let workingDir := getWorkingDirectory r.state.settings detectedBasePath activeFile
    if r.state.settings.terminalApp = "custom" then
      (LaunchResult.ok [⟨customCommandString r.state.settings workingDir, some workingDir⟩] [],
       r.state)
    else
      match openInTerminal isWin r.state.settings workingDir with
      | Except.error msg => (LaunchResult.error msg [] [], r.state)
      | Except.ok (spawns, sched) => (LaunchResult.ok spawns sched, r.state)

/-- Embedding of openClaudeCode (src/main.ts lines 474-509), the launch
    entry point shared by the ribbon icon, the command-palette entry and
    the keyboard shortcut. -/
def openClaudeCode (isDesktopApp isWin : Bool) (st : PluginState) (env : ProbeEnv)
    (detectedBasePath : String) (activeFile : Option TFile) :
    LaunchResult × PluginState :=
  if isDesktopApp = false ∨ isWin = false then (LaunchResult.notWindowsDesktop, st)
  else openClaudeCodeAfterPlatformCheck (checkClaudeCodeInstallation st env) isWin
    detectedBasePath activeFile

/- Helper lemmas about the substring test and the escaping function. -/

theorem startsWithChars_refl (l : List Char) : startsWithChars l l = true := by
  induction l with
  | nil => rfl
  | cons c rest ih => simp [startsWithChars, ih]

theorem startsWithChars_append (a b pat : List Char)
    (h : startsWithChars a pat = true) : startsWithChars (a ++ b) pat = true := by
  induction pat generalizing a with
  | nil => cases a ++ b <;> rfl
  | cons p ps ih =>
    cases a with
    | nil => simp [startsWithChars] at h
    | cons c rest =>
      simp [startsWithChars] at h ⊢
      exact ⟨h.1, ih rest h.2⟩

theorem containsChars_nil_pat (l : List Char) : containsChars l [] = true := by
  cases l <;> rfl

theorem containsChars_refl (l : List Char) : containsChars l l = true := by
  cases l with
  | nil => rfl
  | cons c rest => simp [containsChars, startsWithChars_refl]

theorem containsChars_cons (c : Char) (l pat : List Char)
    (h : containsChars l pat = true) : containsChars (c :: l) pat = true := by
  simp [containsChars, h]

theorem containsChars_append_right (a b pat : List Char)
    (h : containsChars b pat = true) : containsChars (a ++ b) pat = true := by
  induction a with
  | nil => simpa using h
  | cons c rest ih => exact containsChars_cons _ _ _ ih

theorem containsChars_append_left (a b pat : List Char)
    (h : containsChars a pat = true) : containsChars (a ++ b) pat = true := by
  induction a with
  | nil =>
    cases pat with
    | nil => exact containsChars_nil_pat _
    | cons p ps => simp [containsChars, startsWithChars] at h
  | cons c rest ih =>
    simp only [containsChars, Bool.or_eq_true] at h
    rcases h with h | h
    · simp only [List.cons_append, containsChars, Bool.or_eq_true]
      exact Or.inl (startsWithChars_append _ _ _ h)
    · exact containsChars_cons _ _ _ (ih h)

theorem strContains_append_left (a b pat : String)
    (h : strContains a pat = true) : strContains (a ++ b) pat = true := by
  unfold strContains at h ⊢
  rw [String.data_append]
  exact containsChars_append_left _ _ _ h

theorem strContains_append_right (a b pat : String)
    (h : strContains b pat = true) : strContains (a ++ b) pat = true := by
  unfold strContains at h ⊢
  rw [String.data_append]
  exact containsChars_append_right _ _ _ h

theorem strContains_maxturns_shape (c t : String) :
    strContains ((c ++ " --max-turns ") ++ t) ("--max-turns " ++ t) = true := by
  unfold strContains
  rw [String.data_append, String.data_append, String.data_append]
  have h1 : (" --max-turns " : String).data = ' ' :: ("--max-turns " : String).data := rfl
  rw [h1, List.append_assoc]
  apply containsChars_append_right
  show containsChars (' ' :: (("--max-turns " : String).data ++ t.data)) _ = true
  exact containsChars_cons _ _ _ (containsChars_refl _)

theorem addVerbose_contains (s : OpenInClaudeCodeSettings) (c pat : String)
    (h : strContains c pat = true) : strContains (addVerbose s c) pat = true := by
  unfold addVerbose
  split
  · exact strContains_append_left _ _ _ h
  · exact h

theorem addDirStep_contains (c d pat : String)
    (h : strContains c pat = true) : strContains (addDirStep c d) pat = true := by
  unfold addDirStep
  split
  · exact strContains_append_left _ _ _
      (strContains_append_left _ _ _ (strContains_append_left _ _ _ h))
  · exact h

theorem foldl_addDirStep_contains (l : List String) (c pat : String)
    (h : strContains c pat = true) :
    strContains (l.foldl addDirStep c) pat = true := by
  induction l generalizing c with
  | nil => simpa using h
  | cons d rest ih => exact ih _ (addDirStep_contains _ _ _ h)

theorem escapeChars_not_mem (l : List Char) (h : dquote ∉ l) : escapeChars l = l := by
  induction l with
  | nil => rfl
  | cons c rest ih =>
    rw [List.mem_cons, not_or] at h
    have hc : ¬ c = dquote := fun hc => h.1 hc.symm
    simp [escapeChars, hc, ih h.2]

theorem escapeChars_append (a b : List Char) :
    escapeChars (a ++ b) = escapeChars a ++ escapeChars b := by
  induction a with
  | nil => rfl
  | cons c rest ih => by_cases hc : c = dquote <;> simp [escapeChars, hc, ih]

theorem escapeChars_flatMap (l : List Char) :
    escapeChars l = l.flatMap (fun c => if c = dquote then [dquote, dquote] else [c]) := by
  induction l with
  | nil => rfl
  | cons c rest ih => by_cases hc : c = dquote <;> simp [escapeChars, hc, ih]

/- Claim theorems. -/

/-- Settings used as a concrete counterexample to claim C2: every field at
    its default except maxTurns, which is 0. -/
def settingsMaxTurnsZero : OpenInClaudeCodeSettings :=
  { DEFAULT_SETTINGS with maxTurns := 0 }

/-- Claim C2, counterexample: with maxTurns = 0 — an integer different
    from 10 — the built command is the bare base token and contains no
    max-turns flag, because the source guard
    settings.maxTurns && settings.maxTurns !== 10 treats 0 as falsy. -/
theorem C2_max_turns_counterexample :
    buildClaudeCommand settingsMaxTurnsZero = "claude" ∧
    strContains (buildClaudeCommand settingsMaxTurnsZero) "--max-turns" = false :=
  ⟨rfl, rfl⟩

/-- Claim C2, amended: the built command carries no max-turns flag when
    maxTurns is 10 or 0 (both falsify the source guard); for every other
    integer value the built command contains the text consisting of the
    max-turns flag followed by a space and the value rendered verbatim. -/
theorem C2_max_turns_amended (s : OpenInClaudeCodeSettings) :
    ((s.maxTurns = 10 ∨ s.maxTurns = 0) →
      ∀ command, addMaxTurns s command = command) ∧
    (s.maxTurns ≠ 10 → s.maxTurns ≠ 0 →
      strContains (buildClaudeCommand s) ("--max-turns " ++ toString s.maxTurns) = true) := by
  constructor
  · intro h command
    rcases h with h | h <;> simp [addMaxTurns, h]
  · intro h10 h0
    unfold buildClaudeCommand addAdditionalDirectories
    apply foldl_addDirStep_contains
    apply addVerbose_contains
    have he : addMaxTurns s
        (addContinueSession s (addModel s (addDeniedTools s (addAllowedTools s
          (addSkipPermissions s (addPermissionMode s (baseInvocationToken s))))))) =
        (addContinueSession s (addModel s (addDeniedTools s (addAllowedTools s
          (addSkipPermissions s (addPermissionMode s (baseInvocationToken s))))))
          ++ " --max-turns ") ++ toString s.maxTurns := by
      simp [addMaxTurns, h0, h10]
    rw [he]
    exact strContains_maxturns_shape _ _

/-- Claim C2 witness: at maxTurns = 5 the built command contains the
    max-turns flag with the value 5, and at maxTurns = 10 the max-turns
    step appends nothing. -/
theorem C2_max_turns_amended_witness :
    strContains (buildClaudeCommand { DEFAULT_SETTINGS with maxTurns := 5 })
      ("--max-turns " ++ toString (5 : Int)) = true ∧
    addMaxTurns DEFAULT_SETTINGS "claude" = "claude" :=
  ⟨(C2_max_turns_amended { DEFAULT_SETTINGS with maxTurns := 5 }).2
      (by decide) (by decide),
   (C2_max_turns_amended DEFAULT_SETTINGS).1 (Or.inl rfl) "claude"⟩

/-- Claim C5: for every settings record whose nine CLI-option fields are
    all at their defaults, buildClaudeCommand returns exactly the base
    invocation token — the override path when the override toggle is on,
    else the default token — with no flags appended. -/
theorem C5_default_options_build (s : OpenInClaudeCodeSettings)
    (h1 : s.permissionMode = "default") (h2 : s.dangerouslySkipPermissions = false)
    (h3 : s.allowedTools = []) (h4 : s.deniedTools = [])
    (h5 : s.claudeModel = "default") (h6 : s.continueLastSession = false)
    (h7 : s.maxTurns = 10) (h8 : s.verboseMode = false)
    (h9 : s.additionalDirectories = []) :
    buildClaudeCommand s =
      (if s.useCustomClaudePath then s.claudeCodePath else "claude") := by
  simp [buildClaudeCommand, addAdditionalDirectories, addVerbose, addMaxTurns,
    addContinueSession, addModel, addDeniedTools, addAllowedTools,
    addSkipPermissions, addPermissionMode, baseInvocationToken,
    h1, h2, h3, h4, h5, h6, h7, h8, h9]

/-- Claim C5 witness: the default settings build the bare default token. -/
theorem C5_default_options_build_witness :
    buildClaudeCommand DEFAULT_SETTINGS = "claude" :=
  (C5_default_options_build DEFAULT_SETTINGS rfl rfl rfl rfl rfl rfl rfl rfl
    rfl).trans rfl

/-- Claim C6: the path-escaping function is the identity on every string
    without a double-quote character; a string with exactly one
    double-quote (decomposed as a ++ quote ++ b with quote-free a and b)
    maps to the same string with that quote doubled exactly once; and in
    general every double-quote is doubled while every other character is
    kept unchanged (the flatMap characterization). -/
theorem C6_escape_quotes (s : String) :
    (dquote ∉ s.data → escapeWindowsPath s = s) ∧
    (∀ a b : List Char, s.data = a ++ dquote :: b → dquote ∉ a → dquote ∉ b →
      (escapeWindowsPath s).data = a ++ dquote :: dquote :: b) ∧
    (escapeWindowsPath s).data =
      s.data.flatMap (fun c => if c = dquote then [dquote, dquote] else [c]) := by
  obtain ⟨l⟩ := s
  refine ⟨?_, ?_, ?_⟩
  · intro h
    exact congrArg String.mk (escapeChars_not_mem l h)
  · intro a b hab ha hb
    show escapeChars l = a ++ dquote :: dquote :: b
    rw [show l = a ++ dquote :: b from hab, escapeChars_append,
      escapeChars_not_mem a ha]
    simp [escapeChars, escapeChars_not_mem b hb]
  · exact escapeChars_flatMap l

/-- Claim C6 witness: a quote-free path is unchanged, and a path with one
    quote gets that quote doubled exactly once. -/
theorem C6_escape_quotes_witness :
    escapeWindowsPath "C:\\Vault" = "C:\\Vault" ∧
    (escapeWindowsPath "ab\"cd").data = ['a', 'b'] ++ dquote :: dquote :: ['c', 'd'] :=
  ⟨(C6_escape_quotes "C:\\Vault").1 (by decide),
   (C6_escape_quotes "ab\"cd").2.1 ['a', 'b'] ['c', 'd'] (by decide) (by decide)
     (by decide)⟩

/-- Claim C4: the Path Resolver returns the effective root unchanged when
    alwaysOpenVaultRoot is on, or there is no active document, or the
    active document has no parent folder path; otherwise it returns the
    effective root, the backslash separator, and the parent's relative
    path with forward slashes normalized to backslashes — where the
    effective root is the override path when the override is enabled and
    non-empty, else the detected base path. -/
theorem C4_working_directory (s : OpenInClaudeCodeSettings) (base : String)
    (af : Option TFile) :
    ((s.alwaysOpenVaultRoot = true ∨ af = none ∨ activeParentPath af = "") →
      getWorkingDirectory s base af =
        (if s.useCustomVaultPath = true ∧ s.customVaultPath ≠ ""
         then s.customVaultPath else base)) ∧
    (s.alwaysOpenVaultRoot = false → activeParentPath af ≠ "" →
      getWorkingDirectory s base af =
        (if s.useCustomVaultPath = true ∧ s.customVaultPath ≠ ""
         then s.customVaultPath else base)
          ++ "\\" ++ normalizeSeparators (activeParentPath af)) := by
  constructor
  · intro h
    rcases h with h | h | h
    · simp [getWorkingDirectory, getVaultPath, h]
    · subst h
      cases hA : s.alwaysOpenVaultRoot <;>
        simp [getWorkingDirectory, getVaultPath, hA]
    · cases af with
      | none =>
        cases hA : s.alwaysOpenVaultRoot <;>
          simp [getWorkingDirectory, getVaultPath, hA]
      | some f =>
        simp only [activeParentPath] at h
        cases hA : s.alwaysOpenVaultRoot <;>
          simp [getWorkingDirectory, getVaultPath, hA, h]
  · intro hA hp
    cases af with
    | none => simp [activeParentPath] at hp
    | some f =>
      simp only [activeParentPath] at hp
      simp [getWorkingDirectory, getVaultPath, hA, hp, activeParentPath]

/-- Claim C4 witness, the spec scenario: detected root C:\Vault, active
    document parent Projects/2024, alwaysOpenVaultRoot off, no overrides →
    working directory C:\Vault\Projects\2024. -/
theorem C4_working_directory_witness :
    getWorkingDirectory DEFAULT_SETTINGS "C:\\Vault" (some ⟨some "Projects/2024"⟩) =
      "C:\\Vault\\Projects\\2024" :=
  ((C4_working_directory DEFAULT_SETTINGS "C:\\Vault"
      (some ⟨some "Projects/2024"⟩)).2 rfl (by decide)).trans rfl

/-- Claim C8, counterexample: a probe for a key stores its result at time
    1000; a second probe at time 61000 — the two times differ by exactly
    60 000 ms, so by at most 60 000 ms — re-executes the underlying probe
    and returns the new result true instead of the cached false, because
    the source reuses the cache only while now - timestamp < 60000. -/
theorem C8_terminal_cache_counterexample :
    (checkTerminalAppInstalled true [] "wt.exe" 1000 false).2 =
      [("wt.exe", ⟨false, 1000⟩)] ∧
    (checkTerminalAppInstalled true [("wt.exe", ⟨false, 1000⟩)] "wt.exe" 61000 true).1 =
      true :=
  ⟨rfl, rfl⟩

/-- Claim C8, amended: for a cached entry of a key, a probe whose time is
    strictly less than 60 000 ms after the entry's probe time (at most
    59 999 ms later) returns the cached result unchanged and leaves the
    cache untouched, even if the underlying probe condition changed; a
    probe 60 000 ms or more after the entry's probe time re-executes the
    underlying probe and stores its fresh result. -/
theorem C8_terminal_cache_amended (cache : List (String × TerminalCacheEntry))
    (key : String) (e : TerminalCacheEntry) (t2 : Nat) (p2 : Bool)
    (hl : cacheLookup cache key = some e) :
    (t2 - e.timestamp < 60000 →
      checkTerminalAppInstalled true cache key t2 p2 = (e.installed, cache)) ∧
    (60000 ≤ t2 - e.timestamp →
      checkTerminalAppInstalled true cache key t2 p2 =
        (p2, (key, ⟨p2, t2⟩) :: cache)) := by
  constructor
  · intro h
    simp [checkTerminalAppInstalled, hl, CACHE_DURATION, h]
  · intro h
    simp [checkTerminalAppInstalled, hl, CACHE_DURATION,
      show ¬ (t2 - e.timestamp < 60000) from Nat.not_lt.mpr h]

/-- Claim C8 witness: with a cached false stored at time 1000, a probe at
    time 60999 (59 999 ms later) returns the cached false even though the
    fresh probe would return true, and a probe at time 61000 (60 000 ms
    later) re-probes and returns true. -/
theorem C8_terminal_cache_amended_witness :
    checkTerminalAppInstalled true [("wt.exe", ⟨false, 1000⟩)] "wt.exe" 60999 true =
      (false, [("wt.exe", ⟨false, 1000⟩)]) ∧
    checkTerminalAppInstalled true [("wt.exe", ⟨false, 1000⟩)] "wt.exe" 61000 true =
      (true, [("wt.exe", ⟨true, 61000⟩), ("wt.exe", ⟨false, 1000⟩)]) :=
  ⟨(C8_terminal_cache_amended [("wt.exe", ⟨false, 1000⟩)] "wt.exe" ⟨false, 1000⟩
      60999 true rfl).1 (by decide),
   (C8_terminal_cache_amended [("wt.exe", ⟨false, 1000⟩)] "wt.exe" ⟨false, 1000⟩
      61000 true rfl).2 (by decide)⟩

/- Helper lemmas about the installation check. -/

theorem check_of_cached (st : PluginState) (env : ProbeEnv) (b : Bool)
    (h : st.claudeInstalled = some b) :
    checkClaudeCodeInstallation st env = ⟨b, st, 0⟩ := by
  simp [checkClaudeCodeInstallation, h]

theorem check_state_installed (st : PluginState) (env : ProbeEnv) :
    (checkClaudeCodeInstallation st env).state.claudeInstalled =
      some (checkClaudeCodeInstallation st env).result := by
  rcases st with ⟨s, ci⟩
  cases ci with
  | some b => rfl
  | none =>
    cases hc : s.useCustomClaudePath <;> cases hd : env.detectedPath <;>
      simp [checkClaudeCodeInstallation, hc, hd]

/-- Claim C10: once the installation check has completed with any result —
    including false — the state records that boolean, every subsequent
    call returns it unchanged with zero fresh probes regardless of what
    the probes would now report, and neither the override-path toggle
    handler nor the override-path text handler resets the cached field, so
    a check after both settings changes still returns the old boolean with
    zero probes. -/
theorem C10_install_cache_persistent (st : PluginState) (env env2 : ProbeEnv)
    (value : Bool) (path : String) :
    (checkClaudeCodeInstallation st env).state.claudeInstalled =
      some (checkClaudeCodeInstallation st env).result ∧
    checkClaudeCodeInstallation (checkClaudeCodeInstallation st env).state env2 =
      ⟨(checkClaudeCodeInstallation st env).result,
       (checkClaudeCodeInstallation st env).state, 0⟩ ∧
    (setUseCustomClaudePath (checkClaudeCodeInstallation st env).state value env2).claudeInstalled =
      some (checkClaudeCodeInstallation st env).result ∧
    (setClaudeCodePath (checkClaudeCodeInstallation st env).state path).claudeInstalled =
      some (checkClaudeCodeInstallation st env).result ∧
    checkClaudeCodeInstallation
        (setClaudeCodePath
          (setUseCustomClaudePath (checkClaudeCodeInstallation st env).state value env2)
          path) env2 =
      ⟨(checkClaudeCodeInstallation st env).result,
       setClaudeCodePath
         (setUseCustomClaudePath (checkClaudeCodeInstallation st env).state value env2)
         path, 0⟩ := by
  have h1 := check_state_installed st env
  exact ⟨h1, check_of_cached _ env2 _ h1, h1, h1, check_of_cached _ env2 _ h1⟩

/-- Probe oracle for the C3 counterexample's first call: auto-detection
    succeeds. -/
def envDetects : ProbeEnv := ⟨fun _ => true, some "C:\\Tools\\claude.exe"⟩

/-- Probe oracle for the C3 counterexample's second call: every probe now
    fails (the overridden path does not exist). -/
def envAllProbesFail : ProbeEnv := ⟨fun _ => false, none⟩

/-- Plugin state of the C3 counterexample after a successful first check
    followed by the user enabling the override toggle and entering a new
    override path. -/
def stAfterOverrideChange : PluginState :=
  setClaudeCodePath
    (setUseCustomClaudePath
      (checkClaudeCodeInstallation ⟨DEFAULT_SETTINGS, none⟩ envDetects).state
      true envDetects)
    "C:\\bad\\claude.exe"

/-- Claim C3, counterexample: after a probe returned true, the user
    enables the override toggle and changes the override path to one whose
    fresh probe would return false; the next installation check still
    returns the cached true with zero fresh probes, so changing the
    override-path setting does not invalidate the short-circuit as the
    claim states. -/
theorem C3_install_cache_counterexample :
    checkClaudeCodeInstallation stAfterOverrideChange envAllProbesFail =
      ⟨true, stAfterOverrideChange, 0⟩ ∧
    envAllProbesFail.verifyResult stAfterOverrideChange.settings.claudeCodePath =
      false :=
  ⟨rfl, rfl⟩

/-- Claim C3, amended: once a probe has returned true during the process
    lifetime, every subsequent installation check returns the cached true
    with zero fresh probes, and nothing invalidates the short-circuit
    before a process restart — in particular neither the override-path
    toggle handler nor the override-path text handler does: after either
    settings change the check still returns the cached true without
    re-probing. -/
theorem C3_install_cache_amended (st : PluginState) (env : ProbeEnv)
    (h : st.claudeInstalled = some true) :
    checkClaudeCodeInstallation st env = ⟨true, st, 0⟩ ∧
    (∀ value env2,
      (setUseCustomClaudePath st value env2).claudeInstalled = some true ∧
      checkClaudeCodeInstallation (setUseCustomClaudePath st value env2) env =
        ⟨true, setUseCustomClaudePath st value env2, 0⟩) ∧
    (∀ path,
      (setClaudeCodePath st path).claudeInstalled = some true ∧
      checkClaudeCodeInstallation (setClaudeCodePath st path) env =
        ⟨true, setClaudeCodePath st path, 0⟩) := by
  refine ⟨check_of_cached st env true h, fun value env2 => ⟨h, ?_⟩,
    fun path => ⟨h, ?_⟩⟩
  · exact check_of_cached _ env true h
  · exact check_of_cached _ env true h

/-- Claim C3 witness: from a state with the short-circuit set, the check
    returns the cached true with zero probes even after an override-path
    settings change. -/
theorem C3_install_cache_amended_witness :
    checkClaudeCodeInstallation ⟨DEFAULT_SETTINGS, some true⟩ envAllProbesFail =
      ⟨true, ⟨DEFAULT_SETTINGS, some true⟩, 0⟩ ∧
    checkClaudeCodeInstallation
        (setClaudeCodePath ⟨DEFAULT_SETTINGS, some true⟩ "C:\\bad\\claude.exe")
        envAllProbesFail =
      ⟨true, setClaudeCodePath ⟨DEFAULT_SETTINGS, some true⟩ "C:\\bad\\claude.exe", 0⟩ :=
  ⟨(C3_install_cache_amended ⟨DEFAULT_SETTINGS, some true⟩ envAllProbesFail rfl).1,
   ((C3_install_cache_amended ⟨DEFAULT_SETTINGS, some true⟩ envAllProbesFail rfl).2.2
     "C:\\bad\\claude.exe").2⟩

/-- Settings used as a concrete counterexample to claim C1: custom
    terminal mode with a template mentioning the directory placeholder
    twice. -/
def settingsDoubleCwd : OpenInClaudeCodeSettings :=
  { DEFAULT_SETTINGS with
    terminalApp := "custom",
    customCommand := "echo {{cwd}} {{cwd}} {{claude}}" }

/-- Claim C1, counterexample: with a template containing the directory
    placeholder twice, the string the custom launch step hands to the
    spawn facility still contains a directory placeholder — only the first
    occurrence was substituted, refuting the claim that every occurrence
    of each placeholder is replaced. -/
theorem C1_custom_template_counterexample :
    customCommandString settingsDoubleCwd "C:\\Vault" =
      "echo C:\\Vault {{cwd}} claude" ∧
    strContains (customCommandString settingsDoubleCwd "C:\\Vault") "{{cwd}}" =
      true :=
  ⟨rfl, rfl⟩

/-- Claim C1, amended: when the configured terminal id is the sentinel
    custom, the launch entry point replaces the FIRST occurrence of the
    directory placeholder in the user's raw template with the resolved
    directory, then the FIRST occurrence of the command placeholder with
    the built command — not every occurrence, and each replacement is
    inserted under JavaScript's GetSubstitution rewriting of its dollar
    sequences — and hands the result to the process-spawn facility as the
    single spawn of the invocation, with the resolved directory as working
    directory and no scheduled automation step. -/
theorem C1_custom_template_amended (st : PluginState) (env : ProbeEnv)
    (base : String) (af : Option TFile)
    (hinst : (checkClaudeCodeInstallation st env).result = true)
    (hcustom : (checkClaudeCodeInstallation st env).state.settings.terminalApp =
      "custom") :
    (openClaudeCode true true st env base af).1 =
      LaunchResult.ok
        [⟨jsReplaceFirst
            (jsReplaceFirst
              (checkClaudeCodeInstallation st env).state.settings.customCommand
              "{{cwd}}"
              (getWorkingDirectory (checkClaudeCodeInstallation st env).state.settings
                base af))
            "{{claude}}"
            (buildClaudeCommand (checkClaudeCodeInstallation st env).state.settings),
          some (getWorkingDirectory (checkClaudeCodeInstallation st env).state.settings
            base af)⟩]
        [] := by
  simp [openClaudeCode, openClaudeCodeAfterPlatformCheck, customCommandString,
    hinst, hcustom]

/-- Settings of the C1 witness: the spec scenario's template with verbose
    mode on, so the built inner command is claude --verbose. -/
def settingsSpecTemplate : OpenInClaudeCodeSettings :=
  { DEFAULT_SETTINGS with
    terminalApp := "custom",
    verboseMode := true,
    customCommand := "cmd /c \"start cmd /k \\\"cd /d {{cwd}} && {{claude}}\\\"\"" }

/-- Claim C1 witness, the spec scenario: template with one occurrence of
    each placeholder, cwd C:\Vault, built command claude --verbose — both
    placeholders are substituted and the result is spawned with C:\Vault
    as working directory. -/
theorem C1_custom_template_amended_witness :
    (openClaudeCode true true ⟨settingsSpecTemplate, some true⟩
        ⟨fun _ => true, none⟩ "C:\\Vault" none).1 =
      LaunchResult.ok
        [⟨"cmd /c \"start cmd /k \\\"cd /d C:\\Vault && claude --verbose\\\"\"",
          some "C:\\Vault"⟩]
        [] := by
  rw [C1_custom_template_amended ⟨settingsSpecTemplate, some true⟩
    ⟨fun _ => true, none⟩ "C:\\Vault" none rfl rfl]
  rfl

/-- Claim C7: when the installation check passes but the configured
    terminal id is neither the sentinel custom nor a key of the terminal
    dispatch table, the launch entry point fails with the
    InvalidTerminalSelected error message and performs zero spawn calls
    and zero scheduled automation steps. -/
theorem C7_invalid_terminal (st : PluginState) (env : ProbeEnv) (base : String)
    (af : Option TFile)
    (hinst : (checkClaudeCodeInstallation st env).result = true)
    (hcustom : (checkClaudeCodeInstallation st env).state.settings.terminalApp ≠
      "custom")
    (hmiss : TERMINAL_APPS (checkClaudeCodeInstallation st env).state.settings.terminalApp =
      none) :
    (openClaudeCode true true st env base af).1 =
      LaunchResult.error "Invalid terminal application selected" [] [] ∧
    launchSpawns (openClaudeCode true true st env base af).1 = [] ∧
    launchScheduled (openClaudeCode true true st env base af).1 = [] := by
  have h : (openClaudeCode true true st env base af).1 =
      LaunchResult.error "Invalid terminal application selected" [] [] := by
    simp [openClaudeCode, openClaudeCodeAfterPlatformCheck, openInTerminal,
      hinst, hcustom, hmiss]
  exact ⟨h, by rw [h]; rfl, by rw [h]; rfl⟩

/-- Claim C7 witness: terminal id foo with the installation check cached
    true aborts with the InvalidTerminalSelected error. -/
theorem C7_invalid_terminal_witness :
    (openClaudeCode true true ⟨{ DEFAULT_SETTINGS with terminalApp := "foo" }, some true⟩
        ⟨fun _ => false, none⟩ "C:\\Vault" none).1 =
      LaunchResult.error "Invalid terminal application selected" [] [] :=
  (C7_invalid_terminal ⟨{ DEFAULT_SETTINGS with terminalApp := "foo" }, some true⟩
    ⟨fun _ => false, none⟩ "C:\\Vault" none rfl (by decide) rfl).1

/-- Claim C9: whenever the installation check of a launch invocation
    returns false, the launch entry point surfaces the AssistantNotFound
    abort and performs zero spawn calls and zero scheduled automation
    steps — nothing is ever handed to the process-spawn facility in that
    invocation. -/
theorem C9_assistant_not_found (st : PluginState) (env : ProbeEnv) (base : String)
    (af : Option TFile)
    (h : (checkClaudeCodeInstallation st env).result = false) :
    (openClaudeCode true true st env base af).1 = LaunchResult.assistantNotFound ∧
    launchSpawns (openClaudeCode true true st env base af).1 = [] ∧
    launchScheduled (openClaudeCode true true st env base af).1 = [] := by
  have hh : (openClaudeCode true true st env base af).1 =
      LaunchResult.assistantNotFound := by
    simp [openClaudeCode, openClaudeCodeAfterPlatformCheck, h]
  exact ⟨hh, by rw [hh]; rfl, by rw [hh]; rfl⟩

/-- Claim C9 witness: with the installation check cached false the launch
    aborts with AssistantNotFound and spawns nothing. -/
theorem C9_assistant_not_found_witness :
    (openClaudeCode true true ⟨DEFAULT_SETTINGS, some false⟩ ⟨fun _ => false, none⟩
        "C:\\Vault" none).1 = LaunchResult.assistantNotFound :=
  (C9_assistant_not_found ⟨DEFAULT_SETTINGS, some false⟩ ⟨fun _ => false, none⟩
    "C:\\Vault" none rfl).1
